import Mathlib

/-!
Verification of the pythtocks ETL pipeline (src/etl.py, src/project.py).

The pipeline resolves the S&P 500 ticker universe from a remote index
document, fetches one historical series per ticker from a remote provider,
persists each series as a csv artifact, and outer-joins the adjusted-close
columns of all artifacts into one wide merged table.

The embedding below translates the source functions into Lean:
calendar dates are Nat codes, money values are Int, the filesystem is an
association list from (folder, filename) keys to typed file contents, and
the remote provider is an oracle parameter mapping an attempt index to
either a series (success) or none (the request was denied).
-/

/-- One row of a raw per-ticker series: the numeric quote fields the
provider returns (src/etl.py get_stock_data reads them via the provider;
merge_dfs drops all but the adjusted close). -/
structure Row where
  openField : Int
  high : Int
  low : Int
  closeField : Int
  adjClose : Int
  volume : Int
deriving DecidableEq, Repr

/-- A raw per-ticker series: date-indexed rows, as returned by the remote
provider and as stored in a per-ticker csv artifact. -/
abbrev RawSeries := List (Nat × Row)

/-- A dataframe as merge_dfs manipulates it: a date index plus named
columns, each column an association list from date to adjusted-close
value. -/
structure DF where
  index : List Nat
  cols : List (String × List (Nat × Int))
deriving DecidableEq, Repr

/-- Contents of one file on disk: a per-ticker series artifact, a merged
table, or the persisted ticker universe. -/
inductive Content where
  | series (s : RawSeries)
  | table (d : DF)
  | tickers (ts : List String)
deriving DecidableEq, Repr

/-- First-match association-list lookup (how unique-key csv/folder lookups
behave). -/
def lookupA {α β : Type} [DecidableEq α] : α → List (α × β) → Option β
  | _, [] => none
  | k, p :: rest => if p.1 = k then some p.2 else lookupA k rest

/-- The filesystem: an association list from (folder, filename) to file
content, later writes shadowing earlier ones. -/
structure FS where
  entries : List ((String × String) × Content)
deriving DecidableEq, Repr

def FS.read (fs : FS) (k : String × String) : Option Content :=
  lookupA k fs.entries

def FS.write (fs : FS) (k : String × String) (c : Content) : FS :=
  ⟨(k, c) :: fs.entries⟩

/-- os.listdir restricted to one folder: the filenames present there. -/
def FS.listdir (fs : FS) (folder : String) : List String :=
  fs.entries.filterMap (fun e => if e.1.1 = folder then some e.1.2 else none)

/-- pd.read_csv of a per-ticker artifact: succeeds only when the file
exists and holds a series. -/
def FS.readSeries (fs : FS) (k : String × String) : Option RawSeries :=
  match fs.read k with
  | some (Content.series s) => some s
  | _ => none

/-- Python str.replace(a, b) for single characters. -/
def replaceChar (a b : Char) (s : String) : String :=
  ⟨s.data.map (fun c => if c = a then b else c)⟩

/-- The per-token normalization of get_snp_tickers (src/etl.py lines
74-78): .replace(',', '-').replace('.', '-'). -/
def normalizeTicker (raw : String) : String :=
  replaceChar '.' '-' (replaceChar ',' '-' raw)

/-- get_snp_tickers (src/etl.py lines 70-79): the located wikitable is
modelled as the ordered list of its rows' first-cell link texts, header
row first; the function takes the rows after the header and normalizes
each token. -/
def getSnpTickers (doc : List String) : List String :=
  (doc.drop 1).map normalizeTicker

/-- Insertion step for the lexicographic sort save_tickers applies. -/
def insertTicker (x : String) : List String → List String
  | [] => [x]
  | y :: ys => if x ≤ y then x :: y :: ys else y :: insertTicker x ys

/-- tickers.sort_values(by='Ticker') in save_tickers. -/
def sortTickers : List String → List String
  | [] => []
  | x :: xs => insertTicker x (sortTickers xs)

/-- The Python exceptions the embedded functions can raise. -/
inductive PyErr where
  | nameErr
  | cardinalityMismatch
  | readFail
deriving DecidableEq, Repr

/-- save_tickers (src/etl.py lines 82-111): takes the already-resolved
universe, fails before any write when the count is not 505, otherwise
sorts and persists it. -/
def saveTickers (fs : FS) (resolved : List String) (folder fname : String) :
    FS × Except PyErr (List String) :=
  if resolved.length ≠ 505 then (fs, Except.error PyErr.cardinalityMismatch)
  else
    let sorted := sortTickers resolved
    (fs.write (folder, fname) (Content.tickers sorted), Except.ok sorted)

/-- Outcome of the per-ticker while loop of get_stock_data. -/
structure FetchOut where
  calls : Nat
  sleeps : Nat
  df : Option RawSeries
  wrote : Option RawSeries
  err : Bool
deriving DecidableEq, Repr

/-- The while loop of get_stock_data (src/etl.py lines 150-165), entered
with retries = max_retries and df0 the current binding of the df variable
carried by the enclosing for loop. When max_retries = 0 the loop body
never runs. Otherwise the body runs exactly once, because every path
through it reaches the trailing retries = 0 before the loop condition is
re-checked: the provider is called once; on success df is rebound and
written; on denial the loop sleeps once and falls through to df.to_csv,
which raises a NameError when df is unbound (err = true) and otherwise
writes the stale previously-bound series. -/
def fetchSeries (oracle : Nat → Option RawSeries) (maxRetries : Nat)
    (df0 : Option RawSeries) : FetchOut :=
  match maxRetries with
  | 0 => ⟨0, 0, df0, none, false⟩
  | _ + 1 =>
    match oracle 0 with
    | some s => ⟨1, 0, some s, some s, false⟩
    | none =>
      match df0 with
      | none => ⟨1, 1, none, none, true⟩
      | some prev => ⟨1, 1, some prev, some prev, false⟩

/-- Outcome of get_stock_data: final filesystem, total remote calls,
total sleeps, and the unhandled exception if one aborted the run. -/
structure GSDOut where
  fs : FS
  fetchCalls : Nat
  sleeps : Nat
  err : Option PyErr
deriving DecidableEq, Repr

/-- The for loop of get_stock_data (src/etl.py lines 140-170): for each
ticker, skip when the artifact exists; otherwise run the while loop,
persist whatever it wrote, and abort the whole run when the loop raised.
The df binding persists across tickers, as a Python local does. -/
def processTickers (oracle : String → Nat → Option RawSeries) (maxRetries : Nat)
    (destFolder : String) :
    List String → FS → Option RawSeries → Nat → Nat → GSDOut
  | [], fs, _, calls, sleeps => ⟨fs, calls, sleeps, none⟩
  | t :: rest, fs, dfVar, calls, sleeps =>
    if (fs.read (destFolder, t ++ ".csv")).isSome then
      processTickers oracle maxRetries destFolder rest fs dfVar calls sleeps
    else
      let out := fetchSeries (oracle t) maxRetries dfVar
      let fs2 := match out.wrote with
        | some s => fs.write (destFolder, t ++ ".csv") (Content.series s)
        | none => fs
      if out.err then
        ⟨fs2, calls + out.calls, sleeps + out.sleeps, some PyErr.nameErr⟩
      else
        processTickers oracle maxRetries destFolder rest fs2 out.df
          (calls + out.calls) (sleeps + out.sleeps)

/-- get_stock_data (src/etl.py lines 114-172): obtain the tickers (from
save_tickers when reload_tickers, else by reading the persisted file),
then run the per-ticker loop. doc is the remote index document used only
on the reload path. -/
def getStockData (oracle : String → Nat → Option RawSeries) (doc : List String)
    (reloadTickers : Bool) (maxRetries : Nat)
    (tickerFolder tickerFname destFolder : String) (fs0 : FS) : GSDOut :=
  let obtained : FS × Except PyErr (List String) :=
    if reloadTickers then
      saveTickers fs0 (getSnpTickers doc) "data/tickers" "tickers.csv"
    else
      match fs0.read (tickerFolder, tickerFname) with
      | some (Content.tickers ts) => (fs0, Except.ok ts)
      | _ => (fs0, Except.error PyErr.readFail)
  match obtained.2 with
  | Except.error e => ⟨obtained.1, 0, 0, some e⟩
  | Except.ok ts => processTickers oracle maxRetries destFolder ts obtained.1 none 0 0

/-- The module-level constant STOCK_FOLDER (src/etl.py line 240). -/
def STOCK_FOLDER : String := "data/stocks"

/-- The merged output filename used by merge_dfs. -/
def MERGED_FNAME : String := "snp500_merged.csv"

/-- Python f.endswith('.csv'). -/
def endsWithCsv (f : String) : Bool :=
  decide (f.data.reverse.take 4 = ['v', 's', 'c', '.'])

/-- Python cur_fname[:-4]: the filename with its last four characters
removed. -/
def stripCsv (f : String) : String :=
  ⟨f.data.take (f.data.length - 4)⟩

/-- The adjusted-close column extracted from a raw series (merge_dfs keeps
only the Adj Close field). -/
def adjPairs (s : RawSeries) : List (Nat × Int) :=
  s.map (fun p => (p.1, p.2.adjClose))

/-- Loading one artifact inside merge_dfs (src/etl.py lines 207-214):
read the csv with the date as index, drop every field but Adj Close, and
rename that column to the filename minus its .csv suffix. -/
def loadCol (fname : String) (s : RawSeries) : DF :=
  ⟨s.map Prod.fst, [(stripCsv fname, adjPairs s)]⟩

/-- The index of a pandas outer join: the union of the two date sets, left
dates first. -/
def unionIdx (xs ys : List Nat) : List Nat :=
  xs ++ ys.filter (fun y => !decide (y ∈ xs))

/-- master_df.join(cur_df, how='outer'): the date index becomes the union
and the column sets are concatenated; existing cell values are unchanged. -/
def DF.join (a b : DF) : DF :=
  ⟨unionIdx a.index b.index, a.cols ++ b.cols⟩

/-- Cell access in the merged table: look up the column by name, then the
value at the given date; none encodes a missing (NaN) cell. -/
def DF.cell (m : DF) (d : Nat) (name : String) : Option Int :=
  (lookupA name m.cols).bind (fun col => lookupA d col)

/-- Accumulator of the merging for loop: the master_df binding (None until
the first file seeds it), the number of completed artifact reads, and
whether a read raised. -/
structure MergeAcc where
  master : Option DF
  reads : Nat
  failed : Bool
deriving DecidableEq, Repr

/-- One iteration of the merging for loop (src/etl.py lines 203-220):
read the artifact at (stock_folder, fname), load its adjusted-close
column, and seed or outer-join the master dataframe. -/
def mergeStep (fs : FS) (stockFolder : String) (acc : MergeAcc) (fname : String) :
    MergeAcc :=
  if acc.failed then acc
  else
    match fs.readSeries (stockFolder, fname) with
    | none => ⟨acc.master, acc.reads, true⟩
    | some s =>
      let cur := loadCol fname s
      match acc.master with
      | none => ⟨some cur, acc.reads + 1, false⟩
      | some m => ⟨some (m.join cur), acc.reads + 1, false⟩

/-- Outcome of merge_dfs: final filesystem, the returned dataframe (none
for the early return and on error), completed artifact reads, and whether
an exception aborted the call. -/
structure MergeOut where
  fs : FS
  result : Option DF
  reads : Nat
  failed : Bool
deriving DecidableEq, Repr

/-- merge_dfs (src/etl.py lines 181-230). The early return fires when the
merged file already exists and reload_data is false. The filename list is
taken from the module-level STOCK_FOLDER constant, while each file is read
from the stock_folder argument. A None master at the end (no csv files)
raises, as master_df.to_csv does on None. -/
def mergeDfs (fs : FS) (stockFolder saveFolder : String) (reloadData : Bool) :
    MergeOut :=
  if (fs.read (saveFolder, MERGED_FNAME)).isSome && !reloadData then
    ⟨fs, none, 0, false⟩
  else
    let fnames := (fs.listdir STOCK_FOLDER).filter endsWithCsv
    let acc := fnames.foldl (mergeStep fs stockFolder) ⟨none, 0, false⟩
    if acc.failed then ⟨fs, none, acc.reads, true⟩
    else
      match acc.master with
      | none => ⟨fs, none, acc.reads, true⟩
      | some m =>
          ⟨fs.write (saveFolder, MERGED_FNAME) (Content.table m), some m,
            acc.reads, false⟩

/-- A stock folder populated with one artifact per named series, as
get_stock_data leaves it for merge_dfs. -/
def fsOf (files : List (String × RawSeries)) : FS :=
  ⟨files.map (fun p => ((STOCK_FOLDER, p.1 ++ ".csv"), Content.series p.2))⟩

/-! ## Basic lemmas about the embedding -/

theorem lookupA_map_val {α β γ : Type} [DecidableEq α] (g : β → γ) (k : α) :
    ∀ l : List (α × β),
      lookupA k (l.map (fun p => (p.1, g p.2))) = (lookupA k l).map g
  | [] => rfl
  | p :: rest => by
    by_cases h : p.1 = k
    · simp [lookupA, h]
    · simp [lookupA, h, lookupA_map_val g k rest]

theorem lookupA_eq_none_iff {α β : Type} [DecidableEq α] (k : α) :
    ∀ l : List (α × β), lookupA k l = none ↔ k ∉ l.map Prod.fst
  | [] => by simp [lookupA]
  | p :: rest => by
    by_cases h : p.1 = k
    · simp [lookupA, h]
    · simp [lookupA, h, lookupA_eq_none_iff k rest, Ne.symm h]

theorem lookupA_of_mem_nodup {α β : Type} [DecidableEq α] {k : α} {v : β} :
    ∀ {l : List (α × β)}, (l.map Prod.fst).Nodup → (k, v) ∈ l →
      lookupA k l = some v
  | [], _, hm => by simp at hm
  | p :: rest, hnd, hm => by
    rcases List.mem_cons.mp hm with h | h
    · subst h; simp [lookupA]
    · have hk : k ∈ rest.map Prod.fst :=
        List.mem_map.mpr ⟨(k, v), h, rfl⟩
      have hne : p.1 ≠ k := by
        intro he
        exact (List.nodup_cons.mp (by simpa using hnd)).1 (he ▸ hk)
      simp only [lookupA, if_neg hne]
      exact lookupA_of_mem_nodup (List.nodup_cons.mp (by simpa using hnd)).2 h

theorem lookupA_mem_of_eq_some {α β : Type} [DecidableEq α] {k : α} {v : β} :
    ∀ {l : List (α × β)}, lookupA k l = some v → (k, v) ∈ l
  | [], h => by simp [lookupA] at h
  | p :: rest, h => by
    by_cases hk : p.1 = k
    · simp only [lookupA, if_pos hk] at h
      obtain rfl := Option.some.inj h
      exact List.mem_cons.mpr (Or.inl (by rw [← hk]))
    · simp only [lookupA, if_neg hk] at h
      exact List.mem_cons.mpr (Or.inr (lookupA_mem_of_eq_some h))

theorem lookupA_perm {α β : Type} [DecidableEq α] {l l' : List (α × β)}
    (hperm : l.Perm l') (hnd : (l.map Prod.fst).Nodup) (k : α) :
    lookupA k l = lookupA k l' := by
  have hnd' : (l'.map Prod.fst).Nodup := ((hperm.map Prod.fst).nodup_iff).mp hnd
  cases hl : lookupA k l with
  | none =>
    have : k ∉ l'.map Prod.fst := by
      intro hk
      exact ((lookupA_eq_none_iff k l).mp hl)
        (((hperm.map Prod.fst).mem_iff).mpr hk)
    exact ((lookupA_eq_none_iff k l').mpr this).symm
  | some v =>
    exact ((lookupA_of_mem_nodup hnd' (hperm.mem_iff.mp
      (lookupA_mem_of_eq_some hl)))).symm

theorem mem_unionIdx (d : Nat) (xs ys : List Nat) :
    d ∈ unionIdx xs ys ↔ d ∈ xs ∨ d ∈ ys := by
  by_cases h : d ∈ xs <;> simp [unionIdx, List.mem_filter, h]

/-! ## C4: the cardinality gate of save_tickers -/

/-- C4: for every resolved universe whose length differs from 505,
saveTickers fails with CardinalityMismatch and returns the filesystem
unchanged — no file, not even a partial one, is written. -/
theorem save_cardinality_guard (fs : FS) (resolved : List String)
    (folder fname : String) (h : resolved.length ≠ 505) :
    saveTickers fs resolved folder fname =
      (fs, Except.error PyErr.cardinalityMismatch) := by
  simp [saveTickers, h]

/-- Witness for C4 at a concrete 1-element universe. -/
theorem save_cardinality_guard_witness :
    (["AAA"] : List String).length ≠ 505 ∧
    saveTickers ⟨[]⟩ ["AAA"] "data/tickers" "tickers.csv" =
      (⟨[]⟩, Except.error PyErr.cardinalityMismatch) :=
  ⟨by decide,
    save_cardinality_guard ⟨[]⟩ ["AAA"] "data/tickers" "tickers.csv" (by decide)⟩

/-! ## C8: identifier resolution and normalization -/

theorem normalizeTicker_data (raw : String) :
    (normalizeTicker raw).data =
      raw.data.map (fun c => if c = ',' ∨ c = '.' then '-' else c) := by
  simp only [normalizeTicker, replaceChar, List.map_map]
  apply List.map_congr_left
  intro c _
  by_cases h1 : c = ','
  · simp [Function.comp, h1]
  · by_cases h2 : c = '.'
    · simp [Function.comp, h1, h2]
    · simp [Function.comp, h1, h2]

/-- C8: for every index document (header row followed by exactly N ticker
rows), getSnpTickers returns exactly N identifiers in document order, and
each returned identifier is the raw token with every comma and every
period replaced by a hyphen. -/
theorem resolve_normalizes_in_order (header : String) (rows : List String) :
    (getSnpTickers (header :: rows)).length = rows.length ∧
    getSnpTickers (header :: rows) =
      rows.map (fun raw =>
        String.mk (raw.data.map (fun c => if c = ',' ∨ c = '.' then '-' else c))) := by
  constructor
  · simp [getSnpTickers]
  · show rows.map normalizeTicker = _
    apply List.map_congr_left
    intro raw _
    exact String.ext (normalizeTicker_data raw)

/-! ## C1: the retry loop makes only one remote attempt -/

/-- C1: at the claim's own input — max_retries = 3, the remote call denied
on attempts 1 and 2 and succeeding on attempt 3 — the code does not
return the attempt-3 result after 2 backoff sleeps: the loop makes exactly
one remote call and one sleep, and then either raises a NameError (no df
binding yet) or persists the stale previously-bound series. -/
theorem fetch_single_attempt_behavior :
    fetchSeries (fun n => if n = 2 then some [(0, ⟨0, 0, 0, 0, 7, 0⟩)] else none)
        3 none = ⟨1, 1, none, none, true⟩ ∧
    fetchSeries (fun n => if n = 2 then some [(0, ⟨0, 0, 0, 0, 7, 0⟩)] else none)
        3 (some [(9, ⟨0, 0, 0, 0, 3, 0⟩)]) =
      ⟨1, 1, some [(9, ⟨0, 0, 0, 0, 3, 0⟩)],
        some [(9, ⟨0, 0, 0, 0, 3, 0⟩)], false⟩ := by
  decide

/-! ## C2: a first-identifier fetch failure aborts the whole run -/

/-- C2: at a concrete universe ["T1", "T2"] where T1's fetch is denied and
T2's would succeed, the run is aborted by an unhandled NameError after one
remote call: the failure is not contained, T2 is never fetched and no
artifact is written. -/
theorem driver_aborts_on_first_identifier_failure :
    (fun (t : String) (_ : Nat) =>
        if t = "T2" then some [(1, (⟨1, 1, 1, 1, 5, 1⟩ : Row))] else none) "T2" 0 =
      some [(1, ⟨1, 1, 1, 1, 5, 1⟩)] ∧
    getStockData
        (fun t _ => if t = "T2" then some [(1, ⟨1, 1, 1, 1, 5, 1⟩)] else none)
        [] false 3 "data/tickers" "tickers.csv" "data/stocks"
        ⟨[(("data/tickers", "tickers.csv"), Content.tickers ["T1", "T2"])]⟩ =
      ⟨⟨[(("data/tickers", "tickers.csv"), Content.tickers ["T1", "T2"])]⟩,
        1, 1, some PyErr.nameErr⟩ := by
  decide

/-! ## C6: the merge short-circuit -/

/-- C6 counterexample: with the merged file already present and
reload_data = false, merge_dfs returns None (the bare return at
src/etl.py line 191), not the existing merged table. -/
theorem merge_shortcut_counterexample :
    (FS.read ⟨[(("data/merged", MERGED_FNAME),
          Content.table ⟨[1], [("AAA", [(1, 10)])]⟩)]⟩
        ("data/merged", MERGED_FNAME)) =
      some (Content.table ⟨[1], [("AAA", [(1, 10)])]⟩) ∧
    (mergeDfs ⟨[(("data/merged", MERGED_FNAME),
          Content.table ⟨[1], [("AAA", [(1, 10)])]⟩)]⟩
        "data/stocks" "data/merged" false).result ≠
      some ⟨[1], [("AAA", [(1, 10)])]⟩ := by
  decide

/-- C6 as amended: when the destination file exists and overwrite is
false, the call is a no-op — zero artifact reads, the filesystem is
unchanged and no exception — but it returns no table (None) rather than
the existing merged table. -/
theorem merge_shortcut_noop (fs : FS) (sf sv : String)
    (h : (fs.read (sv, MERGED_FNAME)).isSome) :
    mergeDfs fs sf sv false = ⟨fs, none, 0, false⟩ := by
  simp [mergeDfs, h]

/-- Witness for the amended C6 at a concrete filesystem. -/
theorem merge_shortcut_noop_witness :
    ((⟨[(("data/merged", MERGED_FNAME), Content.table ⟨[], []⟩)]⟩ : FS).read
        ("data/merged", MERGED_FNAME)).isSome ∧
    mergeDfs ⟨[(("data/merged", MERGED_FNAME), Content.table ⟨[], []⟩)]⟩
        "data/stocks" "data/merged" false =
      ⟨⟨[(("data/merged", MERGED_FNAME), Content.table ⟨[], []⟩)]⟩,
        none, 0, false⟩ :=
  ⟨by decide,
    merge_shortcut_noop ⟨[(("data/merged", MERGED_FNAME), Content.table ⟨[], []⟩)]⟩
      "data/stocks" "data/merged" (by decide)⟩

/-! ## C9: the loop persists whatever df is bound and never retries -/

/-- C9: when the single remote attempt for an identifier is denied, the
loop still reaches the persistence step and zeroes the retry counter: for
every retry budget of at least 1 it makes exactly one remote call and one
sleep; with no df binding yet (first identifier of the run) the write
raises an unhandled NameError that aborts the driver; with a previous
identifier's series bound, that stale series is persisted under the
failing identifier's artifact path, the run continues, and a later run's
resume check then treats the failing identifier as acquired and skips it. -/
theorem loop_writes_stale_df (oracle : Nat → Option RawSeries) (k : Nat)
    (hfail : oracle 0 = none) (prev : RawSeries)
    (drv : String → Nat → Option RawSeries) (s1 : RawSeries) (m : Nat)
    (h1 : drv "T1" 0 = some s1) (h2 : drv "T2" 0 = none)
    (oracle2 : String → Nat → Option RawSeries) :
    fetchSeries oracle (k + 1) none = ⟨1, 1, none, none, true⟩ ∧
    fetchSeries oracle (k + 1) (some prev) =
      ⟨1, 1, some prev, some prev, false⟩ ∧
    getStockData drv [] false (m + 1) "data/tickers" "tickers.csv" "data/stocks"
        ⟨[(("data/tickers", "tickers.csv"), Content.tickers ["T2"])]⟩ =
      ⟨⟨[(("data/tickers", "tickers.csv"), Content.tickers ["T2"])]⟩,
        1, 1, some PyErr.nameErr⟩ ∧
    getStockData drv [] false (m + 1) "data/tickers" "tickers.csv" "data/stocks"
        ⟨[(("data/tickers", "tickers.csv"), Content.tickers ["T1", "T2"])]⟩ =
      ⟨⟨[(("data/stocks", "T2.csv"), Content.series s1),
          (("data/stocks", "T1.csv"), Content.series s1),
          (("data/tickers", "tickers.csv"), Content.tickers ["T1", "T2"])]⟩,
        2, 1, none⟩ ∧
    getStockData oracle2 [] false (m + 1) "data/tickers" "tickers.csv" "data/stocks"
        ⟨[(("data/stocks", "T2.csv"), Content.series s1),
          (("data/stocks", "T1.csv"), Content.series s1),
          (("data/tickers", "tickers.csv"), Content.tickers ["T1", "T2"])]⟩ =
      ⟨⟨[(("data/stocks", "T2.csv"), Content.series s1),
          (("data/stocks", "T1.csv"), Content.series s1),
          (("data/tickers", "tickers.csv"), Content.tickers ["T1", "T2"])]⟩,
        0, 0, none⟩ := by
  refine ⟨by simp [fetchSeries, hfail], by simp [fetchSeries, hfail], ?_, ?_, ?_⟩
  · simp [getStockData, processTickers, fetchSeries, h2, FS.read, FS.write, lookupA]
  · simp [getStockData, processTickers, fetchSeries, h1, h2, FS.read, FS.write,
      lookupA]
  · simp [getStockData, processTickers, fetchSeries, FS.read, FS.write, lookupA]

/-- Witness for C9 at concrete oracles, series, and retry budget 1. -/
theorem loop_writes_stale_df_witness :
    (fun (_ : Nat) => (none : Option RawSeries)) 0 = none ∧
    (fun (t : String) (_ : Nat) =>
        if t = "T1" then some [(2, (⟨0, 0, 0, 0, 4, 0⟩ : Row))] else none) "T1" 0 =
      some [(2, ⟨0, 0, 0, 0, 4, 0⟩)] ∧
    (fun (t : String) (_ : Nat) =>
        if t = "T1" then some [(2, (⟨0, 0, 0, 0, 4, 0⟩ : Row))] else none) "T2" 0 =
      none ∧
    (fetchSeries (fun _ => none) 1 none = ⟨1, 1, none, none, true⟩ ∧
    fetchSeries (fun _ => none) 1 (some [(3, ⟨0, 0, 0, 0, 9, 0⟩)]) =
      ⟨1, 1, some [(3, ⟨0, 0, 0, 0, 9, 0⟩)], some [(3, ⟨0, 0, 0, 0, 9, 0⟩)], false⟩ ∧
    getStockData
        (fun t _ => if t = "T1" then some [(2, ⟨0, 0, 0, 0, 4, 0⟩)] else none)
        [] false 1 "data/tickers" "tickers.csv" "data/stocks"
        ⟨[(("data/tickers", "tickers.csv"), Content.tickers ["T2"])]⟩ =
      ⟨⟨[(("data/tickers", "tickers.csv"), Content.tickers ["T2"])]⟩,
        1, 1, some PyErr.nameErr⟩ ∧
    getStockData
        (fun t _ => if t = "T1" then some [(2, ⟨0, 0, 0, 0, 4, 0⟩)] else none)
        [] false 1 "data/tickers" "tickers.csv" "data/stocks"
        ⟨[(("data/tickers", "tickers.csv"), Content.tickers ["T1", "T2"])]⟩ =
      ⟨⟨[(("data/stocks", "T2.csv"), Content.series [(2, ⟨0, 0, 0, 0, 4, 0⟩)]),
          (("data/stocks", "T1.csv"), Content.series [(2, ⟨0, 0, 0, 0, 4, 0⟩)]),
          (("data/tickers", "tickers.csv"), Content.tickers ["T1", "T2"])]⟩,
        2, 1, none⟩ ∧
    getStockData (fun _ _ => none)
        [] false 1 "data/tickers" "tickers.csv" "data/stocks"
        ⟨[(("data/stocks", "T2.csv"), Content.series [(2, ⟨0, 0, 0, 0, 4, 0⟩)]),
          (("data/stocks", "T1.csv"), Content.series [(2, ⟨0, 0, 0, 0, 4, 0⟩)]),
          (("data/tickers", "tickers.csv"), Content.tickers ["T1", "T2"])]⟩ =
      ⟨⟨[(("data/stocks", "T2.csv"), Content.series [(2, ⟨0, 0, 0, 0, 4, 0⟩)]),
          (("data/stocks", "T1.csv"), Content.series [(2, ⟨0, 0, 0, 0, 4, 0⟩)]),
          (("data/tickers", "tickers.csv"), Content.tickers ["T1", "T2"])]⟩,
        0, 0, none⟩) :=
  ⟨rfl, by decide, by decide,
    loop_writes_stale_df (fun _ => none) 0 rfl [(3, ⟨0, 0, 0, 0, 9, 0⟩)]
      (fun t _ => if t = "T1" then some [(2, ⟨0, 0, 0, 0, 4, 0⟩)] else none)
      [(2, ⟨0, 0, 0, 0, 4, 0⟩)] 0 (by decide) (by decide) (fun _ _ => none)⟩

/-! ## The merging fold -/

/-- The series stored at an artifact path, defaulted to empty for
statement purposes. -/
def seriesAt (fs : FS) (sf f : String) : RawSeries :=
  (fs.readSeries (sf, f)).getD []

theorem mergeFold_ok (fs : FS) (sf : String) :
    ∀ (fnames : List String) (m0 : DF) (r0 : Nat),
      (∀ f ∈ fnames, (fs.readSeries (sf, f)).isSome) →
      ∃ m : DF,
        List.foldl (mergeStep fs sf) ⟨some m0, r0, false⟩ fnames =
          ⟨some m, r0 + fnames.length, false⟩ ∧
        m.cols = m0.cols ++
          fnames.map (fun f => (stripCsv f, adjPairs (seriesAt fs sf f))) ∧
        (∀ d, d ∈ m.index ↔ d ∈ m0.index ∨
          ∃ f ∈ fnames, d ∈ (seriesAt fs sf f).map Prod.fst)
  | [], m0, r0, _ => ⟨m0, by simp, by simp, by simp⟩
  | f :: rest, m0, r0, hread => by
    obtain ⟨s, hs⟩ :=
      Option.isSome_iff_exists.mp (hread f (List.mem_cons_self f rest))
    have hstep : mergeStep fs sf ⟨some m0, r0, false⟩ f =
        ⟨some (m0.join (loadCol f s)), r0 + 1, false⟩ := by
      simp [mergeStep, hs]
    obtain ⟨m, hfold, hcols, hidx⟩ :=
      mergeFold_ok fs sf rest (m0.join (loadCol f s)) (r0 + 1)
        (fun g hg => hread g (List.mem_cons_of_mem f hg))
    have hlen : r0 + 1 + rest.length = r0 + (f :: rest).length := by
      simp only [List.length_cons]
      omega
    refine ⟨m, ?_, ?_, ?_⟩
    · rw [List.foldl_cons, hstep, hfold, hlen]
    · rw [hcols]
      simp [DF.join, loadCol, seriesAt, hs, List.append_assoc]
    · intro d
      rw [hidx d]
      simp only [DF.join, mem_unionIdx, loadCol, seriesAt, hs, Option.getD_some,
        List.mem_cons]
      constructor
      · rintro (⟨hm | hc⟩ | ⟨g, hg, hd⟩)
        · exact Or.inl hm
        · exact Or.inr ⟨f, Or.inl rfl, by simpa [seriesAt, hs] using hc⟩
        · exact Or.inr ⟨g, Or.inr hg, hd⟩
      · rintro (hm | ⟨g, (rfl | hg), hd⟩)
        · exact Or.inl (Or.inl hm)
        · exact Or.inl (Or.inr (by simpa [seriesAt, hs] using hd))
        · exact Or.inr ⟨g, hg, hd⟩

theorem mergeFold_start (fs : FS) (sf : String) (f : String) (rest : List String)
    (hread : ∀ g ∈ f :: rest, (fs.readSeries (sf, g)).isSome) :
    ∃ m : DF,
      List.foldl (mergeStep fs sf) ⟨none, 0, false⟩ (f :: rest) =
        ⟨some m, (f :: rest).length, false⟩ ∧
      m.cols = (f :: rest).map (fun g => (stripCsv g, adjPairs (seriesAt fs sf g))) ∧
      (∀ d, d ∈ m.index ↔ ∃ g ∈ f :: rest, d ∈ (seriesAt fs sf g).map Prod.fst) := by
  obtain ⟨s, hs⟩ :=
    Option.isSome_iff_exists.mp (hread f (List.mem_cons_self f rest))
  have hstep : mergeStep fs sf ⟨none, 0, false⟩ f = ⟨some (loadCol f s), 1, false⟩ := by
    simp [mergeStep, hs]
  obtain ⟨m, hfold, hcols, hidx⟩ :=
    mergeFold_ok fs sf rest (loadCol f s) 1
      (fun g hg => hread g (List.mem_cons_of_mem f hg))
  have hlen : 1 + rest.length = (f :: rest).length := by
    simp only [List.length_cons]
    omega
  refine ⟨m, ?_, ?_, ?_⟩
  · rw [List.foldl_cons, hstep, hfold, hlen]
  · rw [hcols]
    simp [loadCol, seriesAt, hs]
  · intro d
    rw [hidx d]
    simp only [loadCol, seriesAt, hs, Option.getD_some, List.mem_cons]
    constructor
    · rintro (hm | ⟨g, hg, hd⟩)
      · exact ⟨f, Or.inl rfl, by simpa [seriesAt, hs] using hm⟩
      · exact ⟨g, Or.inr hg, hd⟩
    · rintro ⟨g, (rfl | hg), hd⟩
      · exact Or.inl (by simpa [seriesAt, hs] using hd)
      · exact Or.inr ⟨g, hg, hd⟩

/-- Behavior of merge_dfs when the merge actually runs (reload_data =
true): the merged artifact set is enumerated from the module-level
STOCK_FOLDER constant while each artifact's contents are read relative to
the stock_folder argument. -/
theorem mergeDfs_reload_spec (fs : FS) (sf sv : String)
    (hne : (fs.listdir STOCK_FOLDER).filter endsWithCsv ≠ [])
    (hread : ∀ f ∈ (fs.listdir STOCK_FOLDER).filter endsWithCsv,
      (fs.readSeries (sf, f)).isSome) :
    ∃ m : DF,
      (mergeDfs fs sf sv true).result = some m ∧
      m.cols = ((fs.listdir STOCK_FOLDER).filter endsWithCsv).map
        (fun f => (stripCsv f, adjPairs (seriesAt fs sf f))) ∧
      (∀ d, d ∈ m.index ↔
        ∃ f ∈ (fs.listdir STOCK_FOLDER).filter endsWithCsv,
          d ∈ (seriesAt fs sf f).map Prod.fst) := by
  obtain ⟨f, rest, hfr⟩ := List.exists_cons_of_ne_nil hne
  obtain ⟨m, hfold, hcols, hidx⟩ :=
    mergeFold_start fs sf f rest (hfr ▸ hread)
  refine ⟨m, ?_, by rw [hfr, hcols], fun d => by rw [hidx d, hfr]⟩
  simp only [mergeDfs, Bool.not_true, Bool.and_false, Bool.false_eq_true,
    if_false, hfr, hfold]

/-! ## Filename and stock-folder lemmas -/

theorem endsWithCsv_append (n : String) : endsWithCsv (n ++ ".csv") = true := by
  have h1 : (n ++ ".csv").data = n.data ++ ['.', 'c', 's', 'v'] := by
    rw [String.data_append]
  have h2 : List.take 4 ((n ++ ".csv").data.reverse) = ['v', 's', 'c', '.'] := by
    rw [h1, List.reverse_append]
    have := List.take_left (['v', 's', 'c', '.'] : List Char) n.data.reverse
    exact this
  simp [endsWithCsv, h2]

theorem stripCsv_append (n : String) : stripCsv (n ++ ".csv") = n := by
  apply String.ext
  show (n ++ ".csv").data.take ((n ++ ".csv").data.length - 4) = n.data
  have h1 : (n ++ ".csv").data = n.data ++ ['.', 'c', 's', 'v'] := by
    rw [String.data_append]
  rw [h1]
  have h2 : (n.data ++ ['.', 'c', 's', 'v']).length - 4 = n.data.length := by
    simp
  rw [h2]
  exact List.take_left n.data ['.', 'c', 's', 'v']

theorem append_csv_inj {a b : String} (h : a ++ ".csv" = b ++ ".csv") : a = b := by
  have hd := congrArg String.data h
  simp [String.data_append] at hd
  exact String.ext hd

theorem listdir_fsOf (files : List (String × RawSeries)) :
    (fsOf files).listdir STOCK_FOLDER = files.map (fun p => p.1 ++ ".csv") := by
  induction files with
  | nil => rfl
  | cons p rest ih =>
    simp only [fsOf, FS.listdir, List.map_cons, List.filterMap_cons] at ih ⊢
    rw [ih]
    simp

theorem filter_csv_fsOf (files : List (String × RawSeries)) :
    ((fsOf files).listdir STOCK_FOLDER).filter endsWithCsv =
      files.map (fun p => p.1 ++ ".csv") := by
  rw [listdir_fsOf]
  apply List.filter_eq_self.mpr
  intro a ha
  obtain ⟨p, _, rfl⟩ := List.mem_map.mp ha
  exact endsWithCsv_append p.1

theorem readSeries_fsOf (files : List (String × RawSeries))
    (hnd : (files.map Prod.fst).Nodup) {n : String} {s : RawSeries}
    (hmem : (n, s) ∈ files) :
    (fsOf files).readSeries (STOCK_FOLDER, n ++ ".csv") = some s := by
  have hinj : Function.Injective
      (fun x : String => ((STOCK_FOLDER, x ++ ".csv") : String × String)) := by
    intro a b hab
    exact append_csv_inj (congrArg Prod.snd hab)
  have hkeys : ((fsOf files).entries.map Prod.fst).Nodup := by
    have : (fsOf files).entries.map Prod.fst =
        (files.map Prod.fst).map (fun x => (STOCK_FOLDER, x ++ ".csv")) := by
      simp [fsOf, List.map_map]
    rw [this]
    exact hnd.map hinj
  have hment : (((STOCK_FOLDER, n ++ ".csv") : String × String),
      Content.series s) ∈ (fsOf files).entries :=
    List.mem_map.mpr ⟨(n, s), hmem, rfl⟩
  have hrd : (fsOf files).read (STOCK_FOLDER, n ++ ".csv") =
      some (Content.series s) :=
    lookupA_of_mem_nodup hkeys hment
  simp [FS.readSeries, hrd]

theorem seriesAt_fsOf (files : List (String × RawSeries))
    (hnd : (files.map Prod.fst).Nodup) {n : String} {s : RawSeries}
    (hmem : (n, s) ∈ files) :
    seriesAt (fsOf files) STOCK_FOLDER (n ++ ".csv") = s := by
  simp [seriesAt, readSeries_fsOf files hnd hmem]

/-- The merged table produced from a populated stock folder: one column
per artifact named by its ticker, carrying that artifact's adjusted-close
pairs, with the date index the union of all artifacts' date sets. -/
theorem mergeDfs_fsOf_spec (files : List (String × RawSeries))
    (hne : files ≠ []) (hnd : (files.map Prod.fst).Nodup) (sv : String) :
    ∃ m : DF,
      (mergeDfs (fsOf files) STOCK_FOLDER sv true).result = some m ∧
      m.cols = files.map (fun p => (p.1, adjPairs p.2)) ∧
      (∀ d, d ∈ m.index ↔ ∃ p ∈ files, d ∈ p.2.map Prod.fst) := by
  have hne2 : ((fsOf files).listdir STOCK_FOLDER).filter endsWithCsv ≠ [] := by
    rw [filter_csv_fsOf]
    simpa using hne
  have hread : ∀ f ∈ ((fsOf files).listdir STOCK_FOLDER).filter endsWithCsv,
      ((fsOf files).readSeries (STOCK_FOLDER, f)).isSome := by
    intro f hf
    rw [filter_csv_fsOf] at hf
    obtain ⟨p, hp, rfl⟩ := List.mem_map.mp hf
    rw [readSeries_fsOf files hnd (show (p.1, p.2) ∈ files by simpa using hp)]
    rfl
  obtain ⟨m, hres, hcols, hidx⟩ :=
    mergeDfs_reload_spec (fsOf files) STOCK_FOLDER sv hne2 hread
  refine ⟨m, hres, ?_, ?_⟩
  · rw [hcols, filter_csv_fsOf, List.map_map]
    apply List.map_congr_left
    intro p hp
    have := seriesAt_fsOf files hnd (show (p.1, p.2) ∈ files by simpa using hp)
    simp [Function.comp, stripCsv_append, this]
  · intro d
    rw [hidx d, filter_csv_fsOf]
    constructor
    · rintro ⟨f, hf, hd⟩
      obtain ⟨p, hp, rfl⟩ := List.mem_map.mp hf
      have := seriesAt_fsOf files hnd (show (p.1, p.2) ∈ files by simpa using hp)
      exact ⟨p, hp, by rwa [this] at hd⟩
    · rintro ⟨p, hp, hd⟩
      have := seriesAt_fsOf files hnd (show (p.1, p.2) ∈ files by simpa using hp)
      exact ⟨p.1 ++ ".csv", List.mem_map.mpr ⟨p, hp, rfl⟩, by rwa [this]⟩

/-! ## C3: outer-join semantics of the merged table -/

/-- C3: for every nonempty set of per-identifier series with distinct
identifiers, the merged table's date index is exactly the union of all
dates appearing in any series; at a date carried by an identifier's
series, that identifier's column holds the series' adjusted-close value,
while a date absent from the series yields a missing cell in that column;
no date row is dropped for partial coverage. -/
theorem merge_outer_join_semantics (files : List (String × RawSeries))
    (hne : files ≠ []) (hnd : (files.map Prod.fst).Nodup) (sv : String) :
    ∃ m : DF,
      (mergeDfs (fsOf files) STOCK_FOLDER sv true).result = some m ∧
      (∀ d : Nat, d ∈ m.index ↔ ∃ p ∈ files, d ∈ p.2.map Prod.fst) ∧
      (∀ p ∈ files, ∀ d : Nat,
        m.cell d p.1 = (lookupA d p.2).map Row.adjClose) ∧
      (∀ p ∈ files, ∀ d : Nat, d ∉ p.2.map Prod.fst → m.cell d p.1 = none) := by
  obtain ⟨m, hres, hcols, hidx⟩ := mergeDfs_fsOf_spec files hne hnd sv
  have hcell : ∀ p ∈ files, ∀ d : Nat,
      m.cell d p.1 = (lookupA d p.2).map Row.adjClose := by
    intro p hp d
    have hmem : (p.1, p.2) ∈ files := by simpa using hp
    have h1 : lookupA p.1 m.cols = some (adjPairs p.2) := by
      rw [hcols, lookupA_map_val (fun s => adjPairs s) p.1 files,
        lookupA_of_mem_nodup hnd hmem]
      rfl
    have h2 : lookupA d (adjPairs p.2) = (lookupA d p.2).map Row.adjClose :=
      lookupA_map_val Row.adjClose d p.2
    simp [DF.cell, h1, h2]
  refine ⟨m, hres, hidx, hcell, ?_⟩
  intro p hp d hd
  rw [hcell p hp d, (lookupA_eq_none_iff d p.2).mpr hd]
  rfl

/-- Witness for C3 at the spec's own end-to-end example: AAA carries
dates 20200101-02 with values 10, 11 and BBB carries 20200102-03 with
values 20, 21; the final conjunct exhibits the merged table rows
20200101-03 with AAA = [10, 11, missing] and BBB = [missing, 20, 21]. -/
theorem merge_outer_join_semantics_witness :
    (([("AAA", [(20200101, (⟨0, 0, 0, 0, 10, 0⟩ : Row)),
          (20200102, ⟨0, 0, 0, 0, 11, 0⟩)]),
        ("BBB", [(20200102, ⟨0, 0, 0, 0, 20, 0⟩),
          (20200103, ⟨0, 0, 0, 0, 21, 0⟩)])] : List (String × RawSeries)) ≠ []) ∧
    (([("AAA", [(20200101, (⟨0, 0, 0, 0, 10, 0⟩ : Row)),
          (20200102, ⟨0, 0, 0, 0, 11, 0⟩)]),
        ("BBB", [(20200102, ⟨0, 0, 0, 0, 20, 0⟩),
          (20200103, ⟨0, 0, 0, 0, 21, 0⟩)])] :
        List (String × RawSeries)).map Prod.fst).Nodup ∧
    (∃ m : DF,
      (mergeDfs (fsOf [("AAA", [(20200101, (⟨0, 0, 0, 0, 10, 0⟩ : Row)),
            (20200102, ⟨0, 0, 0, 0, 11, 0⟩)]),
          ("BBB", [(20200102, ⟨0, 0, 0, 0, 20, 0⟩),
            (20200103, ⟨0, 0, 0, 0, 21, 0⟩)])])
          STOCK_FOLDER "data/merged" true).result = some m ∧
      (∀ d : Nat, d ∈ m.index ↔
        ∃ p ∈ ([("AAA", [(20200101, (⟨0, 0, 0, 0, 10, 0⟩ : Row)),
            (20200102, ⟨0, 0, 0, 0, 11, 0⟩)]),
          ("BBB", [(20200102, ⟨0, 0, 0, 0, 20, 0⟩),
            (20200103, ⟨0, 0, 0, 0, 21, 0⟩)])] : List (String × RawSeries)),
          d ∈ p.2.map Prod.fst) ∧
      (∀ p ∈ ([("AAA", [(20200101, (⟨0, 0, 0, 0, 10, 0⟩ : Row)),
            (20200102, ⟨0, 0, 0, 0, 11, 0⟩)]),
          ("BBB", [(20200102, ⟨0, 0, 0, 0, 20, 0⟩),
            (20200103, ⟨0, 0, 0, 0, 21, 0⟩)])] : List (String × RawSeries)),
        ∀ d : Nat, m.cell d p.1 = (lookupA d p.2).map Row.adjClose) ∧
      (∀ p ∈ ([("AAA", [(20200101, (⟨0, 0, 0, 0, 10, 0⟩ : Row)),
            (20200102, ⟨0, 0, 0, 0, 11, 0⟩)]),
          ("BBB", [(20200102, ⟨0, 0, 0, 0, 20, 0⟩),
            (20200103, ⟨0, 0, 0, 0, 21, 0⟩)])] : List (String × RawSeries)),
        ∀ d : Nat, d ∉ p.2.map Prod.fst → m.cell d p.1 = none)) ∧
    (mergeDfs (fsOf [("AAA", [(20200101, (⟨0, 0, 0, 0, 10, 0⟩ : Row)),
          (20200102, ⟨0, 0, 0, 0, 11, 0⟩)]),
        ("BBB", [(20200102, ⟨0, 0, 0, 0, 20, 0⟩),
          (20200103, ⟨0, 0, 0, 0, 21, 0⟩)])])
        STOCK_FOLDER "data/merged" true).result =
      some ⟨[20200101, 20200102, 20200103],
        [("AAA", [(20200101, 10), (20200102, 11)]),
          ("BBB", [(20200102, 20), (20200103, 21)])]⟩ :=
  ⟨by decide, by decide,
    merge_outer_join_semantics
      [("AAA", [(20200101, ⟨0, 0, 0, 0, 10, 0⟩), (20200102, ⟨0, 0, 0, 0, 11, 0⟩)]),
        ("BBB", [(20200102, ⟨0, 0, 0, 0, 20, 0⟩), (20200103, ⟨0, 0, 0, 0, 21, 0⟩)])]
      (by decide) (by decide) "data/merged",
    by decide⟩

/-! ## C7: merge order-independence on values -/

/-- C7: for every two artifact sets that are permutations of each other
(distinct identifiers, nonempty), folding the outer join over either
processing order yields merged tables with identical cell values at every
(date, identifier) position and the same date rows; only column order may
differ. -/
theorem merge_order_independent (files files2 : List (String × RawSeries))
    (hperm : files.Perm files2) (hne : files ≠ [])
    (hnd : (files.map Prod.fst).Nodup) (sv sv2 : String) :
    ∃ m m2 : DF,
      (mergeDfs (fsOf files) STOCK_FOLDER sv true).result = some m ∧
      (mergeDfs (fsOf files2) STOCK_FOLDER sv2 true).result = some m2 ∧
      (∀ (d : Nat) (name : String), m.cell d name = m2.cell d name) ∧
      (∀ d : Nat, d ∈ m.index ↔ d ∈ m2.index) := by
  have hne2 : files2 ≠ [] := by
    intro h
    apply hne
    have hlen := hperm.length_eq
    rw [h] at hlen
    exact List.length_eq_zero.mp hlen
  have hnd2 : (files2.map Prod.fst).Nodup := (hperm.map Prod.fst).nodup_iff.mp hnd
  obtain ⟨m, hres, hcols, hidx⟩ := mergeDfs_fsOf_spec files hne hnd sv
  obtain ⟨m2, hres2, hcols2, hidx2⟩ := mergeDfs_fsOf_spec files2 hne2 hnd2 sv2
  refine ⟨m, m2, hres, hres2, ?_, ?_⟩
  · intro d name
    have hpm : (files.map (fun p => (p.1, adjPairs p.2))).Perm
        (files2.map (fun p => (p.1, adjPairs p.2))) :=
      hperm.map (fun p => (p.1, adjPairs p.2))
    have hndm : ((files.map (fun p => (p.1, adjPairs p.2))).map Prod.fst).Nodup := by
      have hsame : (files.map (fun p => (p.1, adjPairs p.2))).map Prod.fst =
          files.map Prod.fst := by
        rw [List.map_map]
        rfl
      rw [hsame]
      exact hnd
    have hlk : lookupA name (files.map (fun p => (p.1, adjPairs p.2))) =
        lookupA name (files2.map (fun p => (p.1, adjPairs p.2))) :=
      lookupA_perm hpm hndm name
    rw [DF.cell, DF.cell, hcols, hcols2, hlk]
  · intro d
    rw [hidx d, hidx2 d]
    constructor
    · rintro ⟨p, hp, hd⟩
      exact ⟨p, hperm.mem_iff.mp hp, hd⟩
    · rintro ⟨p, hp, hd⟩
      exact ⟨p, hperm.mem_iff.mpr hp, hd⟩

/-- Witness for C7 at the two-artifact example merged in both orders. -/
theorem merge_order_independent_witness :
    (([("AAA", [(20200101, (⟨0, 0, 0, 0, 10, 0⟩ : Row))]),
        ("BBB", [(20200102, ⟨0, 0, 0, 0, 20, 0⟩)])] :
        List (String × RawSeries)).Perm
      [("BBB", [(20200102, ⟨0, 0, 0, 0, 20, 0⟩)]),
        ("AAA", [(20200101, ⟨0, 0, 0, 0, 10, 0⟩)])]) ∧
    (([("AAA", [(20200101, (⟨0, 0, 0, 0, 10, 0⟩ : Row))]),
        ("BBB", [(20200102, ⟨0, 0, 0, 0, 20, 0⟩)])] :
        List (String × RawSeries)) ≠ []) ∧
    (([("AAA", [(20200101, (⟨0, 0, 0, 0, 10, 0⟩ : Row))]),
        ("BBB", [(20200102, ⟨0, 0, 0, 0, 20, 0⟩)])] :
        List (String × RawSeries)).map Prod.fst).Nodup ∧
    ∃ m m2 : DF,
      (mergeDfs (fsOf [("AAA", [(20200101, (⟨0, 0, 0, 0, 10, 0⟩ : Row))]),
          ("BBB", [(20200102, ⟨0, 0, 0, 0, 20, 0⟩)])])
          STOCK_FOLDER "data/merged" true).result = some m ∧
      (mergeDfs (fsOf [("BBB", [(20200102, (⟨0, 0, 0, 0, 20, 0⟩ : Row))]),
          ("AAA", [(20200101, ⟨0, 0, 0, 0, 10, 0⟩)])])
          STOCK_FOLDER "data/merged" true).result = some m2 ∧
      (∀ (d : Nat) (name : String), m.cell d name = m2.cell d name) ∧
      (∀ d : Nat, d ∈ m.index ↔ d ∈ m2.index) :=
  ⟨by decide, by decide, by decide,
    merge_order_independent
      [("AAA", [(20200101, ⟨0, 0, 0, 0, 10, 0⟩)]),
        ("BBB", [(20200102, ⟨0, 0, 0, 0, 20, 0⟩)])]
      [("BBB", [(20200102, ⟨0, 0, 0, 0, 20, 0⟩)]),
        ("AAA", [(20200101, ⟨0, 0, 0, 0, 10, 0⟩)])]
      (by decide) (by decide) (by decide) "data/merged" "data/merged"⟩

/-! ## C10: merge_dfs enumerates from the global folder constant -/

/-- C10: whenever the merge actually runs, the set of artifacts merged is
the csv listing of the module-level STOCK_FOLDER constant — for every
stock_folder argument — while each listed file's contents are loaded
relative to the stock_folder argument; the closing conjunct shows a
concrete call with stock_folder = "other" whose merged column comes from
other/A.csv while other/B.csv, absent from the global folder, is ignored. -/
theorem merge_lists_global_folder (fs : FS) (sf sv : String)
    (hne : (fs.listdir STOCK_FOLDER).filter endsWithCsv ≠ [])
    (hread : ∀ f ∈ (fs.listdir STOCK_FOLDER).filter endsWithCsv,
      (fs.readSeries (sf, f)).isSome) :
    (∃ m : DF,
      (mergeDfs fs sf sv true).result = some m ∧
      m.cols = ((fs.listdir STOCK_FOLDER).filter endsWithCsv).map
        (fun f => (stripCsv f, adjPairs (seriesAt fs sf f)))) ∧
    (mergeDfs ⟨[((STOCK_FOLDER, "A.csv"), Content.series [(1, ⟨0, 0, 0, 0, 50, 0⟩)]),
        (("other", "A.csv"), Content.series [(1, ⟨0, 0, 0, 0, 99, 0⟩)]),
        (("other", "B.csv"), Content.series [(2, ⟨0, 0, 0, 0, 77, 0⟩)])]⟩
        "other" "data/merged" true).result = some ⟨[1], [("A", [(1, 99)])]⟩ := by
  constructor
  · obtain ⟨m, hres, hcols, _⟩ := mergeDfs_reload_spec fs sf sv hne hread
    exact ⟨m, hres, hcols⟩
  · decide

/-- Witness for C10 at the same concrete two-folder filesystem. -/
theorem merge_lists_global_folder_witness :
    (((⟨[((STOCK_FOLDER, "A.csv"), Content.series [(1, (⟨0, 0, 0, 0, 50, 0⟩ : Row))]),
        (("other", "A.csv"), Content.series [(1, ⟨0, 0, 0, 0, 99, 0⟩)]),
        (("other", "B.csv"), Content.series [(2, ⟨0, 0, 0, 0, 77, 0⟩)])]⟩ :
        FS).listdir STOCK_FOLDER).filter endsWithCsv ≠ []) ∧
    (∀ f ∈ ((⟨[((STOCK_FOLDER, "A.csv"),
            Content.series [(1, (⟨0, 0, 0, 0, 50, 0⟩ : Row))]),
        (("other", "A.csv"), Content.series [(1, ⟨0, 0, 0, 0, 99, 0⟩)]),
        (("other", "B.csv"), Content.series [(2, ⟨0, 0, 0, 0, 77, 0⟩)])]⟩ :
        FS).listdir STOCK_FOLDER).filter endsWithCsv,
      ((⟨[((STOCK_FOLDER, "A.csv"),
            Content.series [(1, (⟨0, 0, 0, 0, 50, 0⟩ : Row))]),
        (("other", "A.csv"), Content.series [(1, ⟨0, 0, 0, 0, 99, 0⟩)]),
        (("other", "B.csv"), Content.series [(2, ⟨0, 0, 0, 0, 77, 0⟩)])]⟩ :
        FS).readSeries ("other", f)).isSome) ∧
    ((∃ m : DF,
      (mergeDfs ⟨[((STOCK_FOLDER, "A.csv"),
            Content.series [(1, (⟨0, 0, 0, 0, 50, 0⟩ : Row))]),
          (("other", "A.csv"), Content.series [(1, ⟨0, 0, 0, 0, 99, 0⟩)]),
          (("other", "B.csv"), Content.series [(2, ⟨0, 0, 0, 0, 77, 0⟩)])]⟩
          "other" "data/merged" true).result = some m ∧
      m.cols = (((⟨[((STOCK_FOLDER, "A.csv"),
            Content.series [(1, (⟨0, 0, 0, 0, 50, 0⟩ : Row))]),
          (("other", "A.csv"), Content.series [(1, ⟨0, 0, 0, 0, 99, 0⟩)]),
          (("other", "B.csv"), Content.series [(2, ⟨0, 0, 0, 0, 77, 0⟩)])]⟩ :
          FS).listdir STOCK_FOLDER).filter endsWithCsv).map
        (fun f => (stripCsv f,
          adjPairs (seriesAt ⟨[((STOCK_FOLDER, "A.csv"),
              Content.series [(1, (⟨0, 0, 0, 0, 50, 0⟩ : Row))]),
            (("other", "A.csv"), Content.series [(1, ⟨0, 0, 0, 0, 99, 0⟩)]),
            (("other", "B.csv"), Content.series [(2, ⟨0, 0, 0, 0, 77, 0⟩)])]⟩
            "other" f)))) ∧
    (mergeDfs ⟨[((STOCK_FOLDER, "A.csv"),
          Content.series [(1, (⟨0, 0, 0, 0, 50, 0⟩ : Row))]),
        (("other", "A.csv"), Content.series [(1, ⟨0, 0, 0, 0, 99, 0⟩)]),
        (("other", "B.csv"), Content.series [(2, ⟨0, 0, 0, 0, 77, 0⟩)])]⟩
        "other" "data/merged" true).result = some ⟨[1], [("A", [(1, 99)])]⟩) :=
  ⟨by decide, by decide,
    merge_lists_global_folder
      ⟨[((STOCK_FOLDER, "A.csv"), Content.series [(1, ⟨0, 0, 0, 0, 50, 0⟩)]),
        (("other", "A.csv"), Content.series [(1, ⟨0, 0, 0, 0, 99, 0⟩)]),
        (("other", "B.csv"), Content.series [(2, ⟨0, 0, 0, 0, 77, 0⟩)])]⟩
      "other" "data/merged" (by decide) (by decide)⟩

/-! ## C5: acquisition is idempotent against existing artifacts -/

theorem write_read_isSome (fs : FS) (k k2 : String × String) (c : Content)
    (h : (fs.read k).isSome) : ((fs.write k2 c).read k).isSome := by
  unfold FS.read at h
  by_cases he : k2 = k <;> simp [FS.write, FS.read, lookupA, he, h]

theorem procTickers_presence_mono (oracle : String → Nat → Option RawSeries)
    (mr : Nat) (destF : String) :
    ∀ (ts : List String) (fs : FS) (dfVar : Option RawSeries) (c s : Nat)
      (k : String × String),
      (fs.read k).isSome →
      (((processTickers oracle mr destF ts fs dfVar c s).fs).read k).isSome
  | [], fs, dfVar, c, s, k, h => h
  | t :: rest, fs, dfVar, c, s, k, h => by
    rw [processTickers]
    by_cases hp : (fs.read (destF, t ++ ".csv")).isSome
    · rw [if_pos hp]
      exact procTickers_presence_mono oracle mr destF rest fs dfVar c s k h
    · rw [if_neg hp]
      cases hw : (fetchSeries (oracle t) mr dfVar).wrote with
      | none =>
        simp only [hw]
        by_cases he : (fetchSeries (oracle t) mr dfVar).err = true
        · simp only [he, if_pos]
          exact h
        · simp only [Bool.not_eq_true] at he
          simp only [he, Bool.false_eq_true, if_false]
          exact procTickers_presence_mono oracle mr destF rest fs
            (fetchSeries (oracle t) mr dfVar).df
            (c + (fetchSeries (oracle t) mr dfVar).calls)
            (s + (fetchSeries (oracle t) mr dfVar).sleeps) k h
      | some w =>
        simp only [hw]
        have h2 := write_read_isSome fs k (destF, t ++ ".csv") (Content.series w) h
        by_cases he : (fetchSeries (oracle t) mr dfVar).err = true
        · simp only [he, if_pos]
          exact h2
        · simp only [Bool.not_eq_true] at he
          simp only [he, Bool.false_eq_true, if_false]
          exact procTickers_presence_mono oracle mr destF rest
            (fs.write (destF, t ++ ".csv") (Content.series w))
            (fetchSeries (oracle t) mr dfVar).df
            (c + (fetchSeries (oracle t) mr dfVar).calls)
            (s + (fetchSeries (oracle t) mr dfVar).sleeps) k h2

theorem procTickers_other_folder (oracle : String → Nat → Option RawSeries)
    (mr : Nat) (destF : String) :
    ∀ (ts : List String) (fs : FS) (dfVar : Option RawSeries) (c s : Nat)
      (k : String × String), k.1 ≠ destF →
      ((processTickers oracle mr destF ts fs dfVar c s).fs).read k = fs.read k
  | [], fs, dfVar, c, s, k, hk => rfl
  | t :: rest, fs, dfVar, c, s, k, hk => by
    have hwr : ∀ w : RawSeries,
        (fs.write (destF, t ++ ".csv") (Content.series w)).read k = fs.read k := by
      intro w
      have hne : ((destF, t ++ ".csv") : String × String) ≠ k := by
        intro he
        exact hk (by rw [← he])
      simp [FS.write, FS.read, lookupA, hne]
    rw [processTickers]
    by_cases hp : (fs.read (destF, t ++ ".csv")).isSome
    · rw [if_pos hp]
      exact procTickers_other_folder oracle mr destF rest fs dfVar c s k hk
    · rw [if_neg hp]
      cases hw : (fetchSeries (oracle t) mr dfVar).wrote with
      | none =>
        simp only [hw]
        by_cases he : (fetchSeries (oracle t) mr dfVar).err = true
        · simp only [he, if_pos]
        · simp only [Bool.not_eq_true] at he
          simp only [he, Bool.false_eq_true, if_false]
          exact procTickers_other_folder oracle mr destF rest fs
            (fetchSeries (oracle t) mr dfVar).df
            (c + (fetchSeries (oracle t) mr dfVar).calls)
            (s + (fetchSeries (oracle t) mr dfVar).sleeps) k hk
      | some w =>
        simp only [hw]
        by_cases he : (fetchSeries (oracle t) mr dfVar).err = true
        · simp only [he, if_pos]
          exact hwr w
        · simp only [Bool.not_eq_true] at he
          simp only [he, Bool.false_eq_true, if_false]
          rw [procTickers_other_folder oracle mr destF rest
            (fs.write (destF, t ++ ".csv") (Content.series w))
            (fetchSeries (oracle t) mr dfVar).df
            (c + (fetchSeries (oracle t) mr dfVar).calls)
            (s + (fetchSeries (oracle t) mr dfVar).sleeps) k hk]
          exact hwr w

theorem fetch_wrote_of_no_err (oracle : Nat → Option RawSeries) (k : Nat)
    (df0 : Option RawSeries)
    (h : (fetchSeries oracle (k + 1) df0).err = false) :
    ∃ w, (fetchSeries oracle (k + 1) df0).wrote = some w := by
  cases ho : oracle 0 with
  | some s => exact ⟨s, by simp [fetchSeries, ho]⟩
  | none =>
    cases df0 with
    | none => exact absurd h (by simp [fetchSeries, ho])
    | some prev => exact ⟨prev, by simp [fetchSeries, ho]⟩

theorem procTickers_presence (oracle : String → Nat → Option RawSeries)
    (k0 : Nat) (destF : String) :
    ∀ (ts : List String) (fs : FS) (dfVar : Option RawSeries) (c s : Nat),
      (processTickers oracle (k0 + 1) destF ts fs dfVar c s).err = none →
      ∀ t ∈ ts,
        (((processTickers oracle (k0 + 1) destF ts fs dfVar c s).fs).read
          (destF, t ++ ".csv")).isSome
  | [], fs, dfVar, c, s, herr, t, ht => absurd ht (List.not_mem_nil t)
  | t0 :: rest, fs, dfVar, c, s, herr, t, ht => by
    rw [processTickers] at herr ⊢
    by_cases hp : (fs.read (destF, t0 ++ ".csv")).isSome
    · rw [if_pos hp] at herr ⊢
      rcases List.mem_cons.mp ht with rfl | hmem
      · exact procTickers_presence_mono oracle (k0 + 1) destF rest fs dfVar c s
          (destF, t ++ ".csv") hp
      · exact procTickers_presence oracle k0 destF rest fs dfVar c s herr t hmem
    · rw [if_neg hp] at herr ⊢
      by_cases he : (fetchSeries (oracle t0) (k0 + 1) dfVar).err = true
      · exfalso
        simp only [he, if_pos] at herr
        exact Option.some_ne_none PyErr.nameErr herr
      · simp only [Bool.not_eq_true] at he
        obtain ⟨w, hw⟩ := fetch_wrote_of_no_err (oracle t0) k0 dfVar he
        simp only [hw, he, Bool.false_eq_true, if_false] at herr ⊢
        rcases List.mem_cons.mp ht with rfl | hmem
        · apply procTickers_presence_mono
          simp [FS.write, FS.read, lookupA]
        · exact procTickers_presence oracle k0 destF rest
            (fs.write (destF, t0 ++ ".csv") (Content.series w))
            (fetchSeries (oracle t0) (k0 + 1) dfVar).df
            (c + (fetchSeries (oracle t0) (k0 + 1) dfVar).calls)
            (s + (fetchSeries (oracle t0) (k0 + 1) dfVar).sleeps) herr t hmem

theorem procTickers_skip_all (oracle : String → Nat → Option RawSeries)
    (mr : Nat) (destF : String) :
    ∀ (ts : List String) (fs : FS) (dfVar : Option RawSeries) (c s : Nat),
      (∀ t ∈ ts, (fs.read (destF, t ++ ".csv")).isSome ∨ mr = 0) →
      processTickers oracle mr destF ts fs dfVar c s = ⟨fs, c, s, none⟩
  | [], fs, dfVar, c, s, _ => rfl
  | t :: rest, fs, dfVar, c, s, h => by
    rw [processTickers]
    rcases h t (List.mem_cons_self t rest) with hp | hz
    · rw [if_pos hp]
      exact procTickers_skip_all oracle mr destF rest fs dfVar c s
        (fun g hg => h g (List.mem_cons_of_mem t hg))
    · subst hz
      by_cases hp : (fs.read (destF, t ++ ".csv")).isSome
      · rw [if_pos hp]
        exact procTickers_skip_all oracle 0 destF rest fs dfVar c s
          (fun g hg => h g (List.mem_cons_of_mem t hg))
      · rw [if_neg hp]
        have hfz : fetchSeries (oracle t) 0 dfVar = ⟨0, 0, dfVar, none, false⟩ := rfl
        simp only [hfz, Bool.false_eq_true, if_false, Nat.add_zero]
        exact procTickers_skip_all oracle 0 destF rest fs dfVar c s
          (fun g hg => h g (List.mem_cons_of_mem t hg))

/-- C5: the acquisition run is idempotent with respect to the artifact
set. First conjunct: if a run completes without an unhandled exception,
re-running the driver against the resulting destination — under any
provider behavior, so in particular with no network changes — performs
zero fetches, zero sleeps, and leaves the filesystem unchanged. Second
conjunct: any identifier whose artifact already exists at its destination
path is skipped with no network call. -/
theorem acquisition_idempotent (oracle oracle2 : String → Nat → Option RawSeries)
    (doc : List String) (mr : Nat) (tf tn dst : String) (fs0 : FS) (out1 : GSDOut)
    (h1 : getStockData oracle doc false mr tf tn dst fs0 = out1)
    (h2 : out1.err = none) (hfolders : tf ≠ dst) :
    getStockData oracle2 doc false mr tf tn dst out1.fs = ⟨out1.fs, 0, 0, none⟩ ∧
    (∀ (fs : FS) (t : String),
      fs.read (tf, tn) = some (Content.tickers [t]) →
      (fs.read (dst, t ++ ".csv")).isSome →
      getStockData oracle2 doc false mr tf tn dst fs = ⟨fs, 0, 0, none⟩) := by
  constructor
  · cases hrd : fs0.read (tf, tn) with
    | none =>
      exfalso
      simp only [getStockData, hrd, Bool.false_eq_true, if_false] at h1
      rw [← h1] at h2
      simp at h2
    | some c =>
      cases c with
      | series s =>
        exfalso
        simp only [getStockData, hrd, Bool.false_eq_true, if_false] at h1
        rw [← h1] at h2
        simp at h2
      | table d =>
        exfalso
        simp only [getStockData, hrd, Bool.false_eq_true, if_false] at h1
        rw [← h1] at h2
        simp at h2
      | tickers ts =>
        simp only [getStockData, hrd, Bool.false_eq_true, if_false] at h1
        have hfsr : out1.fs.read (tf, tn) = some (Content.tickers ts) := by
          rw [← h1,
            procTickers_other_folder oracle mr dst ts fs0 none 0 0 (tf, tn) hfolders]
          exact hrd
        simp only [getStockData, hfsr, Bool.false_eq_true, if_false]
        apply procTickers_skip_all
        intro t ht
        cases mr with
        | zero => exact Or.inr rfl
        | succ k0 =>
          left
          have hpres := procTickers_presence oracle k0 dst ts fs0 none 0 0
            (by rw [h1]; exact h2) t ht
          rwa [h1] at hpres
  · intro fs t hticks hpres
    simp only [getStockData, hticks, Bool.false_eq_true, if_false]
    apply procTickers_skip_all
    intro g hg
    rw [List.mem_singleton.mp hg]
    exact Or.inl hpres

/-- Witness for C5: a one-ticker run from a fresh destination, then the
re-run against its output. -/
theorem acquisition_idempotent_witness :
    getStockData (fun _ _ => some [(1, (⟨0, 0, 0, 0, 8, 0⟩ : Row))]) [] false 1
        "data/tickers" "tickers.csv" "data/stocks"
        ⟨[(("data/tickers", "tickers.csv"), Content.tickers ["T1"])]⟩ =
      ⟨⟨[(("data/stocks", "T1.csv"), Content.series [(1, ⟨0, 0, 0, 0, 8, 0⟩)]),
          (("data/tickers", "tickers.csv"), Content.tickers ["T1"])]⟩,
        1, 0, none⟩ ∧
    (⟨⟨[(("data/stocks", "T1.csv"), Content.series [(1, (⟨0, 0, 0, 0, 8, 0⟩ : Row))]),
          (("data/tickers", "tickers.csv"), Content.tickers ["T1"])]⟩,
        1, 0, none⟩ : GSDOut).err = none ∧
    ("data/tickers" : String) ≠ "data/stocks" ∧
    (getStockData (fun _ _ => none) [] false 1
        "data/tickers" "tickers.csv" "data/stocks"
        (⟨⟨[(("data/stocks", "T1.csv"),
              Content.series [(1, (⟨0, 0, 0, 0, 8, 0⟩ : Row))]),
            (("data/tickers", "tickers.csv"), Content.tickers ["T1"])]⟩,
          1, 0, none⟩ : GSDOut).fs =
      ⟨(⟨⟨[(("data/stocks", "T1.csv"),
              Content.series [(1, (⟨0, 0, 0, 0, 8, 0⟩ : Row))]),
            (("data/tickers", "tickers.csv"), Content.tickers ["T1"])]⟩,
          1, 0, none⟩ : GSDOut).fs, 0, 0, none⟩ ∧
    (∀ (fs : FS) (t : String),
      fs.read ("data/tickers", "tickers.csv") = some (Content.tickers [t]) →
      (fs.read ("data/stocks", t ++ ".csv")).isSome →
      getStockData (fun _ _ => none) [] false 1
          "data/tickers" "tickers.csv" "data/stocks" fs = ⟨fs, 0, 0, none⟩)) :=
  ⟨by decide, by decide, by decide,
    acquisition_idempotent (fun _ _ => some [(1, ⟨0, 0, 0, 0, 8, 0⟩)])
      (fun _ _ => none) [] 1 "data/tickers" "tickers.csv" "data/stocks"
      ⟨[(("data/tickers", "tickers.csv"), Content.tickers ["T1"])]⟩
      ⟨⟨[(("data/stocks", "T1.csv"), Content.series [(1, ⟨0, 0, 0, 0, 8, 0⟩)]),
          (("data/tickers", "tickers.csv"), Content.tickers ["T1"])]⟩,
        1, 0, none⟩
      (by decide) (by decide) (by decide)⟩
